import Mathlib

/-!
Shallow embedding of the UPS PRL microservice (`src/app.py`) and proofs of
the spec's testable properties.  Pure string manipulation is modelled on
`String`/`List Char`; the HTTP route `create_label` is modelled as a total
function over an explicit environment (identity-endpoint response, carrier
response, server configuration) that also counts the network calls made.
-/

/-- Python string truthiness applied by `x or d` where `x` is `None` or a
string (`None` and `""` are falsy): used at `(body.get("format") or "PDF")`
(line 114), `(to_json.get("name") or "")` (line 123) and
`pkg.get("TrackingNumber") or ""` (line 204). -/
def pyOr (o : Option String) (d : String) : String :=
  match o with
  | none => d
  | some s => if s = "" then d else s

/-- Characters removed from both ends by Python `str.strip()` (the source
only ever strips ASCII text, where these six are the whitespace characters). -/
def isPyWs (c : Char) : Bool :=
  c = ' ' || c = '\t' || c = '\n' || c = '\r' || c = '\x0b' || c = '\x0c'

/-- Python `str.strip()` on a character list: drop whitespace from both ends. -/
def pyStripList (l : List Char) : List Char :=
  ((l.dropWhile isPyWs).reverse.dropWhile isPyWs).reverse

/-- Python `str.strip()`. -/
def pyStrip (s : String) : String :=
  String.mk (pyStripList s.toList)

/-- Python `str.upper()` (the source only compares against the ASCII
strings "PDF"/"GIF", for which `Char.toUpper` agrees with Python). -/
def pyUpper (s : String) : String :=
  String.mk (s.toList.map Char.toUpper)

/-- Membership in the character class kept by `_REF_ALLOWED` (line 40/101):
the regex `[^A-Za-z0-9 \-._/]+` deletes everything outside
letters, digits, space, hyphen, period, underscore, slash. -/
def isRefAllowed (c : Char) : Bool :=
  c.isAlpha || c.isDigit || c = ' ' || c = '-' || c = '.' || c = '_' || c = '/'

/-- Body of `_clean_ref` (lines 101-103) on a character list:
`_REF_ALLOWED.sub("", s).strip()[:35]`. -/
def cleanRefList (l : List Char) : List Char :=
  (pyStripList (l.filter isRefAllowed)).take 35

/-- `_clean_ref(s)` (lines 101-103) with the default `maxlen = 35`. -/
def cleanRef (s : String) : String :=
  String.mk (cleanRefList s.toList)

/-- `_clean_ref(x)` where `x` may be `None` (e.g. `body.get("reference")`
at line 177): `(s or "")` inside `_clean_ref` maps `None` to `""`. -/
def cleanRefOpt (o : Option String) : String :=
  cleanRef (pyOr o "")

/-- The caller-supplied `to` object (line 122): every field is read with
`.get`, so each is optional. -/
structure ToAddr where
  name : Option String := none
  addr1 : Option String := none
  city : Option String := none
  state : Option String := none
  zip : Option String := none
  country : Option String := none
  phone : Option String := none
deriving DecidableEq

/-- The JSON request body of `POST /labels/create` (lines 106-183).
`to = none` models a body without a "to" key; `weight_lbs` is modelled as
a natural number (the source stringifies it with default 1, line 169). -/
structure Body where
  «to» : Option ToAddr := none
  weight_lbs : Option Nat := none
  format : Option String := none
  mode : Option String := none
  service_code : Option String := none
  reference : Option String := none
deriving DecidableEq

/-- A UPS address object as built at lines 131-137 and 144-150. -/
structure Address where
  addressLine : List String
  city : String
  stateProvinceCode : String
  postalCode : String
  countryCode : String
deriving DecidableEq

/-- The `ship_from` party (lines 127-140). -/
structure ShipFromParty where
  name : String
  companyName : String
  attentionName : String
  address : Address
  phone : Option String
deriving DecidableEq

/-- The `ShipTo` party (line 166). -/
structure ShipToParty where
  name : String
  address : Address
deriving DecidableEq

/-- The fixed lab address `lab_addr` (lines 143-150). -/
def labAddress : Address :=
  { addressLine := ["700 North Neely Street, Ste. #17"]
    city := "Gilbert"
    stateProvinceCode := "AZ"
    postalCode := "85233"
    countryCode := "US" }

/-- `sender_name` (line 123): `(to_json.get("name") or "").strip() or "Sender"`. -/
def senderNameOf (t : ToAddr) : String :=
  let s := pyStrip (pyOr t.name "")
  if s = "" then "Sender" else s

/-- `sender_addr` (line 124): the f-string over addr1, city, state, zip. -/
def senderAddrOf (t : ToAddr) : String :=
  (t.addr1.getD "") ++ ", " ++ (t.city.getD "") ++ ", " ++ (t.state.getD "")
    ++ " " ++ (t.zip.getD "")

/-- `sender_phone` (line 125): `(to_json.get("phone") or "").strip()`. -/
def senderPhoneOf (t : ToAddr) : String :=
  pyStrip (pyOr t.phone "")

/-- The `ship_from` dict (lines 127-140), including the conditional
`Phone` key (lines 139-140). -/
def shipFromOf (t : ToAddr) : ShipFromParty :=
  let n := senderNameOf t
  { name := n
    companyName := n
    attentionName := n
    address :=
      { addressLine := [t.addr1.getD ""]
        city := t.city.getD ""
        stateProvinceCode := t.state.getD ""
        postalCode := t.zip.getD ""
        countryCode := t.country.getD "US" }
    phone := let p := senderPhoneOf t; if p = "" then none else some p }

/-- The `ShipTo` dict (line 166): always the lab. -/
def shipToLab : ShipToParty :=
  { name := "First Impressions Dental Lab", address := labAddress }

/-- `DIMENSIONS_IN` (line 118). -/
structure DimensionsSpec where
  uomCode : String
  length : String
  width : String
  height : String
deriving DecidableEq

def dimensionsIn : DimensionsSpec :=
  { uomCode := "IN", length := "6", width := "5", height := "5" }

/-- `DECLARED_VALUE` (line 119). -/
structure DeclaredValueSpec where
  currencyCode : String
  monetaryValue : String
deriving DecidableEq

def declaredValueUSD : DeclaredValueSpec :=
  { currencyCode := "USD", monetaryValue := "100" }

/-- The fallback reference tag `_clean_ref(sender_name)` used at line 178
when the caller-supplied reference cleans to the empty string. -/
def fallbackTag (t : ToAddr) : String :=
  cleanRef (senderNameOf t)

/-- The `ReferenceNumber` list `refs` (lines 176-183): a "PO" tag from the
caller reference or the sender-name fallback, plus a "PM" promo tag when
`PROMO_CODE` is set and cleans to a non-empty string. -/
def referencesOf (b : Body) (t : ToAddr) (promoCode : String) : List (String × String) :=
  let userRef := cleanRefOpt b.reference
  let po := ("PO", if userRef = "" then fallbackTag t else userRef)
  if promoCode ≠ "" then
    let promoRef := cleanRef ("Promo " ++ promoCode)
    if promoRef ≠ "" then [po, ("PM", promoRef)] else [po]
  else [po]

/-- `fmt` (lines 114-116): `(body.get("format") or "PDF").upper()`,
forced back to "PDF" when the result is neither "PDF" nor "GIF". -/
def labelFormat (o : Option String) : String :=
  let f := pyUpper (pyOr o "PDF")
  if f = "PDF" || f = "GIF" then f else "PDF"

/-- The `shipment` dict (lines 153-183).  Note from the source: the service
code is the local constant `"03"` set at line 117 and never read from the
body; `ShipFrom` is always the caller party and `ShipTo` always the lab
(lines 165-166) — no `mode` key is ever consulted. -/
structure Shipment where
  description : String
  shipperNumber : String
  shipperName : String
  shipperAddress : Address
  billShipperAccount : String
  serviceCode : String
  returnServiceCode : String
  shipFrom : ShipFromParty
  shipTo : ShipToParty
  packagingCode : String
  weightLbs : String
  dimensions : DimensionsSpec
  declaredValue : DeclaredValueSpec
  referenceNumbers : List (String × String)
deriving DecidableEq

/-- The `ship_request` document (lines 186-192). -/
structure ShipmentRequest where
  requestOption : String
  shipment : Shipment
  labelImageFormat : String
deriving DecidableEq

/-- Builds `shipment` (lines 153-183) from the body and `to_json = body["to"]`,
with the environment values `SHIPPER_NO` and `PROMO_CODE` as parameters. -/
def buildShipment (b : Body) (t : ToAddr) (shipperNo promoCode : String) : Shipment :=
  { description := "Dental Products"
    shipperNumber := shipperNo
    shipperName := "First Impressions Dental Lab"
    shipperAddress := labAddress
    billShipperAccount := shipperNo
    serviceCode := "03"
    returnServiceCode := "02"
    shipFrom := shipFromOf t
    shipTo := shipToLab
    packagingCode := "02"
    weightLbs := toString (b.weight_lbs.getD 1)
    dimensions := dimensionsIn
    declaredValue := declaredValueUSD
    referenceNumbers := referencesOf b t promoCode }

/-- Builds `ship_request` (lines 186-192). -/
def buildShipmentRequest (b : Body) (t : ToAddr) (shipperNo promoCode : String) :
    ShipmentRequest :=
  { requestOption := "nonvalidate"
    shipment := buildShipment b t shipperNo promoCode
    labelImageFormat := labelFormat b.format }

/-- The identity endpoint's response as observed by `get_token`
(lines 45-59): HTTP status, the JSON fields `access_token` and
`expires_in` (the latter optional, defaulted to 0 at line 59), and the
raw body text used in the error message at line 57. -/
structure IdentityResp where
  status : Nat
  accessToken : String := ""
  expiresIn : Option Nat := none
  text : String := ""
deriving DecidableEq

/-- Result of one `get_token()` call (lines 45-59): raises
`RuntimeError(f"UPS token HTTP {status}: {text}")` when `status >= 300`,
otherwise returns `(access_token, int(expires_in or 0))`. -/
def getTokenResult (r : IdentityResp) : Except String (String × Nat) :=
  if 300 ≤ r.status then
    .error ("UPS token HTTP " ++ toString r.status ++ ": " ++ r.text)
  else
    .ok (r.accessToken, r.expiresIn.getD 0)

/-- One `get_token()` call together with the number of identity-endpoint
exchanges it performs.  The source body (lines 45-59) holds no cached
state and unconditionally executes `requests.post(token_url, ...)` at
line 55, so every call performs exactly one exchange. -/
def getTokenTraced (r : IdentityResp) : Except String (String × Nat) × Nat :=
  (getTokenResult r, 1)

/-- Total identity-endpoint exchanges performed by a sequence of
`get_token()` calls (each observing the given identity response). -/
def identityExchanges (calls : List IdentityResp) : Nat :=
  (calls.map (fun r => (getTokenTraced r).2)).sum

/-- One per-package result object inside the carrier response
(lines 200-204): `ShippingLabel.GraphicImage` (absent key models the
`KeyError` path) and the optional `TrackingNumber`. -/
structure PkgResult where
  shippingLabel : Option String := none
  trackingNumber : Option String := none
deriving DecidableEq

/-- The shape of `PackageResults` in the carrier response: a single
object or a sequence (lines 200-202). -/
inductive PkgResults where
  | single (p : PkgResult)
  | seq (ps : List PkgResult)
deriving DecidableEq

/-- Normalization at lines 201-202: `if isinstance(pkg, list): pkg = pkg[0]`
(`pkg[0]` on an empty list raises, modelled as `none`). -/
def normalizePkg : PkgResults → Option PkgResult
  | .single p => some p
  | .seq ps => ps.head?

/-- `tracking = pkg.get("TrackingNumber") or ""` (line 204). -/
def trackingOf (p : PkgResult) : String :=
  pyOr p.trackingNumber ""

/-- The extracted (label image, tracking) pair from a `PackageResults`
value (lines 200-204); `none` models the exception paths (missing
package result or missing `ShippingLabel.GraphicImage`). -/
def extractShipmentResult (pr : PkgResults) : Option (String × String) :=
  match normalizePkg pr with
  | none => none
  | some p =>
    match p.shippingLabel with
    | none => none
    | some img => some (img, trackingOf p)

/-- The carrier shipment endpoint's response (lines 195-204): HTTP
status, the optional `PackageResults` of the parsed JSON, and the raw
body text echoed at line 197. -/
structure CarrierResp where
  status : Nat
  packageResults : Option PkgResults := none
  text : String := ""
deriving DecidableEq

/-- Symbolic label document.  `raw b64` is the carrier label bytes (as
base64) untouched; `merged b64 banner` is the result of the overlay
pipeline at lines 206-236, which decodes the label, renders the banner
text and merges it onto the first page with `PyPDF2`.  The merge itself
is external library work, so it is kept symbolic; what matters for the
spec is whether the overlay was applied at all and to which inputs. -/
inductive Doc where
  | raw (b64 : String)
  | merged (b64 : String) (banner : String)
deriving DecidableEq

/-- The banner text drawn on the overlay (lines 224-226):
`f"FROM: {sender_name} • {sender_addr}"` truncated to 100 characters by
`note[:100]` at `drawString`. -/
def bannerOf (t : ToAddr) : String :=
  String.mk (("FROM: " ++ senderNameOf t ++ " • " ++ senderAddrOf t).toList.take 100)

/-- A response body from `create_label`: the `{ok, error}` JSON shape,
the carrier-passthrough `{ok, status, error}` shape (line 197), the
`?json=1` envelope (line 242), a `send_file` download (lines 247-252),
or an unhandled-exception message whose exact Python text is not
modelled. -/
inductive RespBody where
  | errMsg (ok : Bool) (error : String)
  | errStatus (ok : Bool) (status : Nat) (error : String)
  | jsonLabel (ok : Bool) (tracking : String) (format : String) (labelBase64 : Doc)
  | fileDownload (mimetype : String) (downloadName : String) (content : Doc)
  | excMsg
deriving DecidableEq

/-- The HTTP result of one `POST /labels/create` request, together with
counts of the network calls performed while producing it. -/
structure RouteResult where
  status : Nat
  body : RespBody
  identityCalls : Nat
  carrierCalls : Nat
deriving DecidableEq

/-- Server environment for one request: `SHIPPER_NO` (empty string
models the falsy unset case at line 110), `PROMO_CODE`, and the two
upstream responses the request would observe. -/
structure Env where
  shipperNo : String
  promoCode : String := "EIGSHIPSUPS"
  identity : IdentityResp
  carrier : CarrierResp
deriving DecidableEq

/-- The `create_label` route (lines 88-262) as a function of the request
body, the `?json=1` flag and the environment.  Control flow mirrors the
source: missing "to" check (108-109), `SHIPPER_NO` check (110-111),
token acquisition via `ups_headers()` inside the carrier call (195, one
identity exchange; a raised `RuntimeError` is caught at 261-262 → 500),
carrier status passthrough (196-197), package extraction (200-204), the
unconditional overlay merge (206-236), and the JSON/file split
(239-252).  Exception paths from missing response keys surface as
`excMsg` with status 500 (the catch-all at 261-262). -/
def createLabel (env : Env) (b : Body) (jsonMode : Bool) : RouteResult :=
  match b.to with
  | none =>
    { status := 400, body := .errMsg false "Missing 'to' address"
      identityCalls := 0, carrierCalls := 0 }
  | some t =>
    if env.shipperNo = "" then
      { status := 500, body := .errMsg false "Missing UPS_SHIPPER_NUMBER env"
        identityCalls := 0, carrierCalls := 0 }
    else
      let fmt := labelFormat b.format
      match getTokenResult env.identity with
      | .error e =>
        { status := 500, body := .errMsg false e
          identityCalls := 1, carrierCalls := 0 }
      | .ok _ =>
        if 300 ≤ env.carrier.status then
          { status := env.carrier.status
            body := .errStatus false env.carrier.status env.carrier.text
            identityCalls := 1, carrierCalls := 1 }
        else
          match env.carrier.packageResults.bind normalizePkg with
          | none =>
            { status := 500, body := .excMsg, identityCalls := 1, carrierCalls := 1 }
          | some pkg =>
            match pkg.shippingLabel with
            | none =>
              { status := 500, body := .excMsg, identityCalls := 1, carrierCalls := 1 }
            | some labelB64 =>
              let doc := Doc.merged labelB64 (bannerOf t)
              if jsonMode then
                { status := 200
                  body := .jsonLabel true (trackingOf pkg) fmt doc
                  identityCalls := 1, carrierCalls := 1 }
              else
                { status := 200
                  body := .fileDownload
                    (if fmt = "PDF" then "application/pdf" else "image/gif")
                    (if fmt = "PDF" then "return-label.pdf" else "return-label.gif")
                    doc
                  identityCalls := 1, carrierCalls := 1 }

/-- The label document carried by a response body, when there is one. -/
def docOf : RespBody → Option Doc
  | .jsonLabel _ _ _ d => some d
  | .fileDownload _ _ d => some d
  | _ => none

/-- Concrete caller-supplied recipient used as a test fixture (the spec's
end-to-end scenario payload). -/
def jane : ToAddr :=
  { name := some "Jane Doe", addr1 := some "1 Main St", city := some "Phoenix"
    state := some "AZ", zip := some "85001", country := some "US" }

/-- Fixture body with `mode = "outbound"`. -/
def janeBodyOut : Body := { «to» := some jane, mode := some "outbound" }

/-- Fixture body with `mode = "return"`. -/
def janeBodyRet : Body := { «to» := some jane, mode := some "return" }

/-- Fixture per-package result with a label image and a tracking number. -/
def pkgOk : PkgResult :=
  { shippingLabel := some "R0lG", trackingNumber := some "1Z999AA10123456784" }

/-- Fixture successful identity-endpoint response (`expires_in` one hour). -/
def identityOk : IdentityResp :=
  { status := 200, accessToken := "tok1", expiresIn := some 3600 }

/-- Fixture failed identity-endpoint response. -/
def identity401 : IdentityResp := { status := 401, text := "Unauthorized" }

/-- Fixture successful carrier response. -/
def carrierOk : CarrierResp := { status := 200, packageResults := some (.single pkgOk) }

/-- Fixture environment in which everything succeeds. -/
def envOk : Env := { shipperNo := "1Y2345", identity := identityOk, carrier := carrierOk }

/-- Fixture environment in which the identity endpoint returns HTTP 401. -/
def env401 : Env := { shipperNo := "1Y2345", identity := identity401, carrier := carrierOk }

/-- Fixture successful carrier response delivering `PackageResults` as a
one-element sequence. -/
def carrierOkSeq : CarrierResp :=
  { status := 200, packageResults := some (.seq [pkgOk]) }

/-- Fixture all-success environment whose carrier response is
sequence-shaped. -/
def envOkSeq : Env :=
  { shipperNo := "1Y2345", identity := identityOk, carrier := carrierOkSeq }

/-- A character surviving Python `strip` was in the original list. -/
theorem mem_of_mem_pyStripList {c : Char} {l : List Char} (h : c ∈ pyStripList l) :
    c ∈ l := by
  unfold pyStripList at h
  rw [List.mem_reverse] at h
  have h2 := (List.dropWhile_sublist isPyWs).subset h
  rw [List.mem_reverse] at h2
  exact (List.dropWhile_sublist isPyWs).subset h2

/-- Python `strip` of a list containing a non-whitespace character is
non-empty. -/
theorem pyStripList_ne_nil {l : List Char} (h : ∃ c ∈ l, isPyWs c = false) :
    pyStripList l ≠ [] := by
  rcases h with ⟨c, hc, hws⟩
  intro hnil
  unfold pyStripList at hnil
  rw [List.reverse_eq_nil_iff, List.dropWhile_eq_nil_iff] at hnil
  have hall : ∀ x ∈ l.dropWhile isPyWs, isPyWs x = true := by
    intro x hx
    exact hnil x (List.mem_reverse.mpr hx)
  have : isPyWs c = true := by
    rcases (List.mem_append.mp
      (by rw [List.takeWhile_append_dropWhile (p := isPyWs)]; exact hc)) with h1 | h2
    · exact List.mem_takeWhile_imp h1
    · exact hall c h2
  simp [this] at hws

/-- Every character of a cleaned reference is in the allowed class. -/
theorem cleanRefList_allowed {c : Char} {l : List Char} (h : c ∈ cleanRefList l) :
    isRefAllowed c = true := by
  unfold cleanRefList at h
  have h2 := mem_of_mem_pyStripList (List.take_subset 35 _ h)
  exact List.of_mem_filter h2

/-- A cleaned reference has at most 35 characters. -/
theorem cleanRefList_length (l : List Char) : (cleanRefList l).length ≤ 35 := by
  unfold cleanRefList
  rw [List.length_take]
  exact Nat.min_le_left _ _

/-- A cleaned reference is non-empty when the input contains an allowed
non-whitespace character. -/
theorem cleanRefList_ne_nil {l : List Char}
    (h : ∃ c ∈ l, isRefAllowed c = true ∧ isPyWs c = false) :
    cleanRefList l ≠ [] := by
  rcases h with ⟨c, hc, hall, hws⟩
  have hne : pyStripList (l.filter isRefAllowed) ≠ [] :=
    pyStripList_ne_nil ⟨c, List.mem_filter.mpr ⟨hc, hall⟩, hws⟩
  unfold cleanRefList
  cases hl : pyStripList (l.filter isRefAllowed) with
  | nil => exact absurd hl hne
  | cons a t => simp

/-- String form of `cleanRefList_allowed`. -/
theorem cleanRef_chars (s : String) : ∀ c ∈ (cleanRef s).toList, isRefAllowed c = true := by
  intro c hc
  exact cleanRefList_allowed hc

/-- String form of `cleanRefList_length`. -/
theorem cleanRef_length (s : String) : (cleanRef s).length ≤ 35 :=
  cleanRefList_length s.toList

/-- The fallback tag is non-empty when the sender name contains an
allowed non-whitespace character. -/
theorem fallbackTag_ne_empty {t : ToAddr}
    (h : ∃ c ∈ (senderNameOf t).toList, isRefAllowed c = true ∧ isPyWs c = false) :
    fallbackTag t ≠ "" := by
  intro hempty
  have : cleanRefList (senderNameOf t).toList = [] := congrArg String.data hempty
  exact cleanRefList_ne_nil h this

/-- Python `x or ""` on an optional string is `Option.getD` with default "". -/
theorem pyOr_empty_default (o : Option String) : pyOr o "" = o.getD "" := by
  cases o with
  | none => rfl
  | some s =>
    simp only [pyOr, Option.getD]
    split
    · rename_i h; exact h.symm
    · rfl

/-- Every `get_token` call performs one exchange, so a sequence of calls
performs as many exchanges as there are calls. -/
theorem identityExchanges_eq_length (calls : List IdentityResp) :
    identityExchanges calls = calls.length := by
  induction calls with
  | nil => rfl
  | cons a l ih =>
    show 1 + identityExchanges l = l.length + 1
    rw [ih]
    exact Nat.add_comm 1 _

/-- Evaluation of `create_label` on the identity-failure path. -/
theorem createLabel_identity_fail (env : Env) (b : Body) (t : ToAddr) (j : Bool)
    (h1 : b.to = some t) (h2 : env.shipperNo ≠ "") (h3 : 300 ≤ env.identity.status) :
    createLabel env b j
      = { status := 500
          body := .errMsg false
            ("UPS token HTTP " ++ toString env.identity.status ++ ": " ++ env.identity.text)
          identityCalls := 1, carrierCalls := 0 } := by
  unfold createLabel
  rw [h1]
  simp only [if_neg h2, getTokenResult, if_pos h3]

/-- Evaluation of `create_label` on the fully successful JSON-mode path. -/
theorem createLabel_json_success (env : Env) (b : Body) (t : ToAddr) (p : PkgResult)
    (img : String)
    (h1 : b.to = some t) (h2 : env.shipperNo ≠ "") (h3 : env.identity.status < 300)
    (h4 : env.carrier.status < 300)
    (h5 : env.carrier.packageResults.bind normalizePkg = some p)
    (h6 : p.shippingLabel = some img) :
    createLabel env b true
      = { status := 200
          body := .jsonLabel true (trackingOf p) (labelFormat b.format)
            (Doc.merged img (bannerOf t))
          identityCalls := 1, carrierCalls := 1 } := by
  unfold createLabel
  rw [h1]
  simp only [if_neg h2, getTokenResult, if_neg (Nat.not_le.mpr h3),
    if_neg (Nat.not_le.mpr h4)]
  rw [show env.carrier.packageResults.bind normalizePkg = some p from h5]
  show ((match p.shippingLabel with
    | none => { status := 500, body := RespBody.excMsg, identityCalls := 1, carrierCalls := 1 }
    | some labelB64 =>
      { status := 200
        body := RespBody.jsonLabel true (trackingOf p) (labelFormat b.format)
          (Doc.merged labelB64 (bannerOf t))
        identityCalls := 1, carrierCalls := 1 } : RouteResult)) = _
  rw [h6]

/-- C1 counterexample: with the scenario payload, flipping `mode` from
"outbound" to "return" does not invert the ship-from/ship-to parties —
the built request always has the caller as ship-from and the lab as
ship-to, so the parties are not exchanged. -/
theorem c1_counterexample :
    ¬ ((((buildShipmentRequest janeBodyOut jane "1Y2345" "EIGSHIPSUPS").shipment.shipFrom.name
          = (buildShipmentRequest janeBodyRet jane "1Y2345" "EIGSHIPSUPS").shipment.shipTo.name)
        ∧ ((buildShipmentRequest janeBodyOut jane "1Y2345" "EIGSHIPSUPS").shipment.shipFrom.address
          = (buildShipmentRequest janeBodyRet jane "1Y2345" "EIGSHIPSUPS").shipment.shipTo.address))
      ∧ (((buildShipmentRequest janeBodyOut jane "1Y2345" "EIGSHIPSUPS").shipment.shipTo.name
          = (buildShipmentRequest janeBodyRet jane "1Y2345" "EIGSHIPSUPS").shipment.shipFrom.name)
        ∧ ((buildShipmentRequest janeBodyOut jane "1Y2345" "EIGSHIPSUPS").shipment.shipTo.address
          = (buildShipmentRequest janeBodyRet jane "1Y2345" "EIGSHIPSUPS").shipment.shipFrom.address))) := by
  decide

/-- C1 (amended): the builder ignores `mode` entirely — any two mode
values (recognized or not) produce identical ShipmentRequests, whose
ship-from is always the caller party and whose ship-to is always the lab. -/
theorem c1_mode_ignored (b : Body) (t : ToAddr) (sn pc : String) (m m' : Option String) :
    buildShipmentRequest { b with mode := m } t sn pc
      = buildShipmentRequest { b with mode := m' } t sn pc
    ∧ (buildShipmentRequest { b with mode := m } t sn pc).shipment.shipFrom = shipFromOf t
    ∧ (buildShipmentRequest { b with mode := m } t sn pc).shipment.shipTo = shipToLab :=
  ⟨by cases b; rfl, rfl, rfl⟩

/-- C1 witness: the amended theorem evaluated on the scenario payload. -/
theorem c1_mode_ignored_witness :
    buildShipmentRequest janeBodyOut jane "1Y2345" "EIGSHIPSUPS"
      = buildShipmentRequest janeBodyRet jane "1Y2345" "EIGSHIPSUPS" :=
  (c1_mode_ignored { «to» := some jane } jane "1Y2345" "EIGSHIPSUPS"
    (some "outbound") (some "return")).1

/-- C2 counterexample: a token fetched at time 0 with `expires_in = 3600`
should, by the claim, be reused with no new identity exchange for a
second call at time 10 (well before the 3540s boundary), for one exchange
in total; the code performs a fresh exchange on every call, so two calls
perform two exchanges. -/
theorem c2_counterexample :
    (10 : Nat) < 0 + 3600 - 60
    ∧ identityExchanges [identityOk, identityOk] = 2
    ∧ identityExchanges [identityOk, identityOk] ≠ 1 := by
  decide

/-- C2 (amended): `get_token` holds no cache — every call performs
exactly one fresh identity-endpoint exchange, and on success returns the
token and `expires_in` of the response it just received. -/
theorem c2_no_cache (calls : List IdentityResp) (r : IdentityResp) (h : r.status < 300) :
    identityExchanges calls = calls.length
    ∧ getTokenResult r = .ok (r.accessToken, r.expiresIn.getD 0)
    ∧ (getTokenTraced r).2 = 1 := by
  refine ⟨identityExchanges_eq_length calls, ?_, rfl⟩
  rw [getTokenResult, if_neg (Nat.not_le.mpr h)]

/-- C2 witness: the amended theorem evaluated on two concrete calls. -/
theorem c2_no_cache_witness :
    identityExchanges [identityOk, identityOk] = 2
    ∧ getTokenResult identityOk = .ok ("tok1", 3600)
    ∧ (getTokenTraced identityOk).2 = 1 :=
  c2_no_cache [identityOk, identityOk] identityOk (by decide)

/-- C3: with format "GIF" and a successful carrier call, the code still
runs the overlay/merge pipeline (lines 206-236 are unconditional) — the
response's label document is the merged one, not the untouched carrier
bytes, contradicting the documented GIF passthrough. -/
theorem c3_gif_overlay_applied :
    labelFormat (some "GIF") = "GIF"
    ∧ docOf (createLabel envOk { «to» := some jane, format := some "GIF" } true).body
        = some (Doc.merged "R0lG" (bannerOf jane))
    ∧ docOf (createLabel envOk { «to» := some jane, format := some "GIF" } true).body
        ≠ some (Doc.raw "R0lG") := by
  decide

/-- C4 counterexample: a caller-supplied `service_code` of "01" is
ignored — the built shipment still carries service code "03". -/
theorem c4_counterexample :
    (buildShipmentRequest { «to» := some jane, service_code := some "01" } jane "1Y2345"
        "EIGSHIPSUPS").shipment.serviceCode = "03"
    ∧ (buildShipmentRequest { «to» := some jane, service_code := some "01" } jane "1Y2345"
        "EIGSHIPSUPS").shipment.serviceCode ≠ "01" := by
  decide

/-- C4 (amended): the shipment's service code is always the ground
service code "03"; the caller's `service_code` field is never read. -/
theorem c4_service_code_constant (b : Body) (t : ToAddr) (sn pc : String) :
    (buildShipmentRequest b t sn pc).shipment.serviceCode = "03" :=
  rfl

/-- C4 witness: the amended theorem evaluated on a concrete body that
supplies a service code. -/
theorem c4_service_code_constant_witness :
    (buildShipmentRequest { «to» := some jane, service_code := some "01" } jane "1Y2345"
        "EIGSHIPSUPS").shipment.serviceCode = "03" :=
  c4_service_code_constant { «to» := some jane, service_code := some "01" } jane
    "1Y2345" "EIGSHIPSUPS"

/-- C5 counterexample: the sender name "::" is supplied and non-empty,
yet the fallback reference tag built from it is empty — every character
of the name is outside the allowed class, so sanitization deletes all of
it. -/
theorem c5_counterexample :
    ("::" : String) ≠ ""
    ∧ senderNameOf { name := some "::" } = "::"
    ∧ fallbackTag { name := some "::" } = "" := by
  decide

/-- C5 (amended): every sanitized reference contains only allowed
characters and has length at most 35; the fallback tag from the sender
name is non-empty whenever the effective sender name contains at least
one allowed non-whitespace character (not merely whenever a name was
supplied). -/
theorem c5_sanitization (s : String) (t : ToAddr)
    (h : ∃ c ∈ (senderNameOf t).toList, isRefAllowed c = true ∧ isPyWs c = false) :
    (∀ c ∈ (cleanRef s).toList, isRefAllowed c = true)
    ∧ (cleanRef s).length ≤ 35
    ∧ fallbackTag t ≠ "" :=
  ⟨cleanRef_chars s, cleanRef_length s, fallbackTag_ne_empty h⟩

/-- C5 witness: the fallback tag for the scenario sender is non-empty. -/
theorem c5_sanitization_witness : fallbackTag jane ≠ "" :=
  (c5_sanitization "a:b c" jane (by decide)).2.2

/-- C6: the label image format is always "PDF" or "GIF"; it equals the
caller's format uppercased when that is one of the two, and is "PDF" for
any other or missing value. -/
theorem c6_label_format (s : String) :
    labelFormat none = "PDF"
    ∧ (labelFormat (some s) = "PDF" ∨ labelFormat (some s) = "GIF")
    ∧ ((pyUpper s = "PDF" ∨ pyUpper s = "GIF") → labelFormat (some s) = pyUpper s)
    ∧ (pyUpper s ≠ "PDF" → pyUpper s ≠ "GIF" → labelFormat (some s) = "PDF") := by
  by_cases h0 : s = ""
  · subst h0
    refine ⟨by decide, Or.inl (by decide), ?_, fun _ _ => by decide⟩
    intro h
    exact absurd h (by decide)
  · have hor : pyOr (some s) "PDF" = s := by simp [pyOr, h0]
    refine ⟨by decide, ?_, ?_, ?_⟩
    · by_cases h1 : pyUpper s = "PDF" || pyUpper s = "GIF"
      · rw [labelFormat, hor, if_pos h1]
        rcases Bool.or_eq_true_iff.mp h1 with h2 | h2
        · left; exact of_decide_eq_true h2
        · right; exact of_decide_eq_true h2
      · rw [labelFormat, hor, if_neg h1]
        left; rfl
    · intro h
      have h1 : (pyUpper s = "PDF" || pyUpper s = "GIF") = true := by
        rcases h with h | h <;> simp [h]
      rw [labelFormat, hor, if_pos h1]
    · intro h1 h2
      have h3 : ¬ (pyUpper s = "PDF" || pyUpper s = "GIF") = true := by
        simp [h1, h2]
      rw [labelFormat, hor, if_neg h3]

/-- C6 witness: the theorem evaluated at the lowercase caller value "gif". -/
theorem c6_label_format_witness : labelFormat (some "gif") = "GIF" := by
  have h := (c6_label_format "gif").2.2.1 (Or.inr (by decide))
  rw [h]
  decide

/-- C7: a carrier response carrying `PackageResults` as a single object
and one carrying the same object as a one-element sequence extract the
same (label image, tracking) result. -/
theorem c7_normalization_invariant (p : PkgResult) :
    extractShipmentResult (.single p) = extractShipmentResult (.seq [p]) :=
  rfl

/-- C7 witness: the theorem evaluated on the fixture package result. -/
theorem c7_normalization_invariant_witness :
    extractShipmentResult (.single pkgOk) = extractShipmentResult (.seq [pkgOk]) :=
  c7_normalization_invariant pkgOk

/-- C8: a request body without a "to" key yields HTTP 400 with the exact
error message, and neither the identity endpoint nor the carrier is
called. -/
theorem c8_missing_to (env : Env) (b : Body) (j : Bool) (h : b.to = none) :
    createLabel env b j
      = { status := 400, body := .errMsg false "Missing 'to' address"
          identityCalls := 0, carrierCalls := 0 } := by
  unfold createLabel
  rw [h]

/-- C8 witness: the theorem evaluated on an empty body. -/
theorem c8_missing_to_witness :
    createLabel envOk { «to» := none } true
      = { status := 400, body := .errMsg false "Missing 'to' address"
          identityCalls := 0, carrierCalls := 0 } :=
  c8_missing_to envOk { «to» := none } true rfl

/-- C9: when the identity endpoint returns a non-success status, the
route responds 500 with an `{ok:false, error}` body whose message
contains the identity endpoint's status code (as the decimal digits of
the status). -/
theorem c9_identity_error (env : Env) (b : Body) (t : ToAddr) (j : Bool)
    (h1 : b.to = some t) (h2 : env.shipperNo ≠ "") (h3 : 300 ≤ env.identity.status) :
    (createLabel env b j).status = 500
    ∧ (createLabel env b j).body
        = .errMsg false
            ("UPS token HTTP " ++ toString env.identity.status ++ ": " ++ env.identity.text)
    ∧ (toString env.identity.status).toList
        <:+: ("UPS token HTTP " ++ toString env.identity.status ++ ": "
                ++ env.identity.text).toList := by
  rw [createLabel_identity_fail env b t j h1 h2 h3]
  refine ⟨rfl, rfl, ⟨"UPS token HTTP ".toList, (": " ++ env.identity.text).toList, ?_⟩⟩
  simp [List.append_assoc]

/-- C9 witness: the theorem evaluated on a 401 identity response. -/
theorem c9_identity_error_witness :
    (createLabel env401 janeBodyOut true).status = 500
    ∧ (createLabel env401 janeBodyOut true).body
        = .errMsg false "UPS token HTTP 401: Unauthorized"
    ∧ ("401" : String).toList <:+: ("UPS token HTTP 401: Unauthorized" : String).toList := by
  have h := c9_identity_error env401 janeBodyOut jane true rfl (by decide) (by decide)
  exact h

/-- C10: in every successful JSON-mode response — whatever the shape of
`PackageResults` (single object or sequence), constrained only through
the normalized package — the `tracking` field is the string
`TrackingNumber.getD ""`: the carrier's tracking number when it supplied
one, and the empty string when `TrackingNumber` was omitted; it is a
string in every case (the model's field is typed `String`). -/
theorem c10_json_tracking (env : Env) (b : Body) (t : ToAddr) (p : PkgResult)
    (img : String)
    (h1 : b.to = some t) (h2 : env.shipperNo ≠ "") (h3 : env.identity.status < 300)
    (h4 : env.carrier.status < 300)
    (h5 : env.carrier.packageResults.bind normalizePkg = some p)
    (h6 : p.shippingLabel = some img) :
    (createLabel env b true).status = 200
    ∧ (createLabel env b true).body
        = .jsonLabel true (p.trackingNumber.getD "") (labelFormat b.format)
            (Doc.merged img (bannerOf t)) := by
  rw [createLabel_json_success env b t p img h1 h2 h3 h4 h5 h6]
  refine ⟨rfl, ?_⟩
  rw [trackingOf, pyOr_empty_default]

/-- C10 witness: the theorem evaluated on an all-success fixture whose
carrier response delivers `PackageResults` as a one-element sequence and
supplies a tracking number. -/
theorem c10_json_tracking_witness :
    (createLabel envOkSeq janeBodyOut true).status = 200
    ∧ (createLabel envOkSeq janeBodyOut true).body
        = .jsonLabel true "1Z999AA10123456784" (labelFormat none)
            (Doc.merged "R0lG" (bannerOf jane)) := by
  have h := c10_json_tracking envOkSeq janeBodyOut jane pkgOk "R0lG" rfl (by decide)
    (by decide) (by decide) rfl rfl
  exact h
